import Mathlib

/-!
Verification development for the BHART-CARDIO diagnostic report pipeline
(`src/MetadataExtractor.py`).  The Python code is shallowly embedded:
numeric values are modelled over `ℚ` (the reference behaviour is exact
real arithmetic per the specification), external effects (the classifier
output, random draws, the OCR engine) are explicit inputs, and fallible
code returns `Option`/`Except`.
-/

/-! ## Python primitives used by the code -/

/-- Accumulator loop of `pySplit`: collect maximal runs of non-whitespace
characters. -/
def pySplitAux : List Char → List Char → List String
  | [], acc => if acc.isEmpty then [] else [String.mk acc.reverse]
  | c :: rest, acc =>
      if c.isWhitespace then
        if acc.isEmpty then pySplitAux rest []
        else String.mk acc.reverse :: pySplitAux rest []
      else pySplitAux rest (c :: acc)

/-- Python `str.split()` with no argument: split on runs of whitespace,
discarding empty pieces. -/
def pySplit (s : String) : List String :=
  pySplitAux s.data []

/-- Decimal digit run to a number; `none` when empty or a non-digit occurs
(Python `int` rejects such strings). -/
def parseDigits (cs : List Char) : Option Nat :=
  if cs.isEmpty then none
  else if cs.all Char.isDigit then
    some (cs.foldl (fun n c => 10 * n + (c.toNat - 48)) 0)
  else none

/-- Python `int(s)` on an ASCII token: surrounding whitespace stripped,
then an optional sign and decimal digits; `none` models `ValueError`. -/
def pythonInt (s : String) : Option Int :=
  let stripped :=
    ((s.data.dropWhile Char.isWhitespace).reverse.dropWhile Char.isWhitespace).reverse
  match stripped with
  | '-' :: rest => (parseDigits rest).map (fun n => -(n : Int))
  | '+' :: rest => (parseDigits rest).map (fun n => (n : Int))
  | cs => (parseDigits cs).map (fun n => (n : Int))

/-- Model of `np.median`: sort, take the middle element (odd length) or the mean of
the two middle elements (even length). -/
def median (l : List ℚ) : ℚ :=
  let s := List.insertionSort (fun a b : ℚ => a ≤ b) l
  let n := l.length
  if n % 2 = 1 then s.getD (n / 2) 0
  else (s.getD (n / 2 - 1) 0 + s.getD (n / 2) 0) / 2

/-- Model of `np.argmax`: index of the first occurrence of the maximal element
(`0` for the empty list, which does not occur in the pipeline). -/
def argmaxAux : List ℚ → ℕ → ℕ → ℚ → ℕ
  | [], _, best, _ => best
  | x :: xs, i, best, bv =>
      if bv < x then argmaxAux xs (i + 1) i x
      else argmaxAux xs (i + 1) best bv

def argmax : List ℚ → ℕ
  | [] => 0
  | x :: xs => argmaxAux xs 1 0 x

/-- One linear-interpolation interval step of `np.interp` over the sorted
sample points paired with their values: clamp below the first point,
interpolate linearly inside an interval, clamp above the last point. -/
def interpSeg : List (ℚ × ℚ) → ℚ → ℚ
  | [], _ => 0
  | [(_, y)], _ => y
  | (x1, y1) :: (x2, y2) :: rest, x =>
      if x ≤ x1 then y1
      else if x ≤ x2 then y1 + (x - x1) * (y2 - y1) / (x2 - x1)
      else interpSeg ((x2, y2) :: rest) x

/-- Model of `np.linspace(0, 1, n)`. -/
def linspace (n : ℕ) : List ℚ :=
  (List.range n).map (fun (i : ℕ) => (i : ℚ) / ((n : ℚ) - 1))

/-- Model of `np.interp(xs, xp, fp)`. -/
def npInterp (xs xp fp : List ℚ) : List ℚ :=
  xs.map (interpSeg (xp.zip fp))

/-- Row mean, `np.mean` over `axis=1`. -/
def pyMean (row : List ℚ) : ℚ := row.sum / (row.length : ℚ)

/-! ## Static clinical configuration (`_MI_TYPES`, `_LEAD_ANALYSIS`) -/

structure MiEntry where
  territory : String
  leads : List String
  criteria : String
deriving DecidableEq, Repr

/-- The `_MI_TYPES` table, in its defined (insertion) order. -/
def _MI_TYPES : List MiEntry :=
  [ { territory := "Anterior", leads := ["V2", "V3", "V4"],
      criteria := "ST elevation >= 2mm (men) or >= 1.5mm (women)" },
    { territory := "Inferior", leads := ["II", "III", "aVF"],
      criteria := "ST elevation >= 1mm" },
    { territory := "Lateral", leads := ["I", "aVL", "V5", "V6"],
      criteria := "ST elevation >= 1mm" },
    { territory := "Posterior", leads := ["V1", "V2"],
      criteria := "ST depression with dominant R wave" },
    { territory := "Right Ventricular", leads := ["V1", "V4R"],
      criteria := "ST elevation >= 1mm in V4R" } ]

/-- Lookup `_CLASS_LABELS.get(i, "Unknown")`. -/
def classLabel (i : ℕ) : String :=
  match i with
  | 0 => "Normal"
  | 1 => "ST Depression"
  | 2 => "Myocardial Infarction"
  | 3 => "ST Elevation"
  | 4 => "Other Abnormalities"
  | _ => "Unknown"

/-- Keys of `_LEAD_ANALYSIS`, in insertion order (`_LEADS_ALL`). -/
def _LEADS_ALL : List String :=
  ["I", "II", "III", "aVR", "aVL", "aVF", "V1", "V2", "V3", "V4", "V5", "V6"]

/-- Lookup `_LEAD_ANALYSIS[lead]["amplitude"]`. -/
def amplitudeRef (lead : String) : String :=
  match lead with
  | "I" => "0.5-1.7 mV"
  | "II" => "0.5-1.7 mV"
  | "III" => "0.1-0.5 mV"
  | "aVR" => "0.1-0.5 mV"
  | "aVL" => "0.1-0.5 mV"
  | "aVF" => "0.1-0.5 mV"
  | "V1" => "<= 0.3 mV"
  | "V2" => "<= 0.3 mV"
  | "V3" => "0.3-1.5 mV"
  | "V4" => "0.5-2.5 mV"
  | "V5" => "0.5-2.5 mV"
  | "V6" => "0.5-2.5 mV"
  | _ => ""

/-- Lookup `_LEAD_ANALYSIS[lead]["duration"]`. -/
def durationRef (lead : String) : String :=
  match lead with
  | "I" => "<= 120 ms"
  | "II" => "<= 120 ms"
  | "III" => "<= 120 ms"
  | "aVR" => "<= 120 ms"
  | "aVL" => "<= 120 ms"
  | "aVF" => "<= 120 ms"
  | "V1" => "<= 110 ms"
  | "V2" => "<= 110 ms"
  | "V3" => "<= 110 ms"
  | "V4" => "<= 110 ms"
  | "V5" => "<= 120 ms"
  | "V6" => "<= 120 ms"
  | _ => ""

/-! ## Data model: STAnalysis, Lead-II detail, Report -/

/-- Result record of `analyze_st_segment`. -/
structure STAnalysis where
  elevation : Bool
  depression : Bool
  level : ℚ
  leads_affected : List String
deriving DecidableEq, Repr

/-- The nested `lead_ii_detail` mapping built in `process_ecg_image`. -/
structure LeadIIDetail where
  P_wave_amp : String
  P_wave_dur : String
  QRS_amp : String
  QRS_dur : String
  T_wave_amp : String
  T_wave_dur : String
  PR_interval : String
  QT_interval : String
  QTc_interval : String
  ST_segment_lead_II : String
deriving DecidableEq, Repr

/-- The `report` dictionary built in `process_ecg_image`. -/
structure Report where
  patientId : String
  heartRate : String
  rrInterval : String
  heartRhythm : String
  cardiacAxis : String
  stSegment : String
  diagnosis : String
  miType : String
  confidence : ℚ
  validationWarnings : List String
  affectedLeads : List String
  leadIIDetail : LeadIIDetail
deriving DecidableEq, Repr

/-! ## Pipeline components -/

/-- Embeds `preprocess_ecg_image`, from the decoded 256x256 grayscale grid on:
divide intensities by 255, average each row (`mean(axis=1)`), then
`np.interp` the 256-point profile onto `np.linspace(0,1,187)`.
The decode/resize step is the external image-source boundary; its output
grid is this function's input. -/
def preprocess_ecg_image (img : List (List ℚ)) : List ℚ :=
  let img_arr := img.map (fun row => row.map (fun v => v / 255))
  let ecg_signal := img_arr.map pyMean
  npInterp (linspace 187) (linspace ecg_signal.length) ecg_signal

/-- Embeds `analyze_st_segment`: baseline = median of the first 50 samples, ST
window = samples `[100:120]`, level = median(ST window) - baseline;
thresholds `±0.1`; `leads_affected` fixed to `["II"]`. -/
def analyze_st_segment (signal : List ℚ) : STAnalysis :=
  let qrs_end := 100
  let st_segment := (signal.drop qrs_end).take 20
  let baseline := median (signal.take 50)
  let st_level := median st_segment - baseline
  { elevation := decide (st_level > 1/10)
    depression := decide (st_level < -(1/10))
    level := st_level
    leads_affected := ["II"] }

/-- The `for mi_type, details in _MI_TYPES.items()` loop of `infer_mi_type`. -/
def inferLoop (affected_leads : List String) : List MiEntry → String
  | [] => "Undetermined Type"
  | e :: rest =>
      if e.leads.all (fun lead => affected_leads.contains lead) then e.territory
      else inferLoop affected_leads rest

/-- Embeds `infer_mi_type`. -/
def infer_mi_type (st_analysis : STAnalysis) : String :=
  inferLoop st_analysis.leads_affected _MI_TYPES

/-- Embeds `int(report["Heart Rate"].split()[0])` with every exception giving 0:
an empty split (`IndexError`) or an unparseable token (`ValueError`)
both fall to the `except` arm. -/
def heartRateValue (r : Report) : Int :=
  match (pySplit r.heartRate).head? with
  | none => 0
  | some tok => (pythonInt tok).getD 0

/-- Embeds `validate_parameters`. -/
def validate_parameters (r : Report) : List String :=
  let hr := heartRateValue r
  (if hr < 60 then ["Bradycardia detected (<60 BPM)"]
   else if hr > 100 then ["Tachycardia detected (>100 BPM)"]
   else [])
  ++ (if r.heartRhythm = "Irregular" then
        ["Irregular rhythm requires further investigation"] else [])
  ++ (if r.diagnosis = "Myocardial Infarction" ∧ r.stSegment ≠ "Elevation" then
        ["MI diagnosis without ST elevation - consider alternative diagnoses"]
      else [])

/-- Embeds `min(1.0, max(0.0, confidence + noise))` from `process_ecg_image`. -/
def calibrate (p noise : ℚ) : ℚ := min 1 (max 0 (p + noise))

/-- External inputs of one `process_ecg_image` run: the classifier output
`pred = model.predict(...)[0]`, the random draws (`np.random.normal`,
`uuid4` prefix, `np.random.randint(50,110)`, the formatted
`np.random.uniform(0.6,1.0)` string, the `np.random.random() > 0.2`
rhythm coin), and the preprocessed signal the analyzer reads. -/
structure PipelineInputs where
  pred : List ℚ
  noise : ℚ
  patientId : String
  hrNat : ℕ
  rrStr : String
  rhythmRegular : Bool
  signal : List ℚ
deriving Repr

/-- Embeds `process_ecg_image`: classify, calibrate confidence, analyze the ST
segment, derive `st_seg`/`mi_type` from the predicted label, assemble the
report, then attach `validate_parameters` of the assembled snapshot. -/
def process_ecg_image (inp : PipelineInputs) : Report :=
  let label_index := argmax inp.pred
  let label := classLabel label_index
  let confidence := calibrate (inp.pred.getD label_index 0) inp.noise
  let st_analysis := analyze_st_segment inp.signal
  let stMi : String × String :=
    if label = "Myocardial Infarction" then ("Elevation", infer_mi_type st_analysis)
    else if label = "ST Depression" then ("Depression", "N/A")
    else ("Normal", "N/A")
  let st_seg := stMi.1
  let mi_type := stMi.2
  let lead_ii_detail : LeadIIDetail :=
    { P_wave_amp := "0.25 mV", P_wave_dur := "80 ms"
      QRS_amp := "1.8 mV", QRS_dur := "100 ms"
      T_wave_amp := "0.35 mV", T_wave_dur := "160 ms"
      PR_interval := "160 ms", QT_interval := "400 ms"
      QTc_interval := "430 ms", ST_segment_lead_II := st_seg }
  let report : Report :=
    { patientId := inp.patientId
      heartRate := toString inp.hrNat ++ " BPM"
      rrInterval := inp.rrStr ++ " sec"
      heartRhythm := if inp.rhythmRegular then "Regular" else "Irregular"
      cardiacAxis := "Normal Axis"
      stSegment := st_seg
      diagnosis := label
      miType := mi_type
      confidence := confidence
      validationWarnings := []
      affectedLeads := st_analysis.leads_affected
      leadIIDetail := lead_ii_detail }
  { report with validationWarnings := validate_parameters report }

/-! ## Document renderer (Section III of `generate_pdf_report`) -/

/-- One row of the Section III grid. -/
structure LeadRow where
  lead : String
  amplitude : String
  duration : String
  morphology : String
  qt : String
deriving DecidableEq, Repr

/-- Section III of `generate_pdf_report`: parse
`int(report["Lead II Detail"]["QT_interval"].split()[0])` (uncaught
failure aborts rendering, hence `Option`), then one row per lead of
`_LEADS_ALL` with morphology from membership in the affected-lead set. -/
def sectionIII (r : Report) : Option (List LeadRow) :=
  match (pySplit r.leadIIDetail.QT_interval).head? with
  | none => none
  | some tok =>
      match pythonInt tok with
      | none => none
      | some qt_ms =>
          some (_LEADS_ALL.map (fun lead =>
            { lead := lead
              amplitude := amplitudeRef lead
              duration := durationRef lead
              morphology := if r.affectedLeads.contains lead then "Abnormal" else "Normal"
              qt := toString qt_ms }))

/-! ## OCR metadata reader (`MetadataExtractor.extract_metadata`) -/

/-- Outcome of the external `pytesseract.image_to_string` call: the engine
is absent (`TesseractNotFoundError`) or it returns some text. -/
inductive OcrOutcome
  | engineMissing
  | text (s : String)

/-- ASCII instance of Python regex `\s` (the metadata text is ASCII). -/
def isPyWhitespace (c : Char) : Bool :=
  c = ' ' || c = '\t' || c = '\n' || c = '\r' || c = Char.ofNat 11 || c = Char.ofNat 12

/-- The whitelist of `re.sub(r"[^a-zA-Z0-9\s\t\n\/\\.,-]+", "", ...)`:
letters, digits, whitespace, and `/ \ . , -`. -/
def isWhitelisted (c : Char) : Bool :=
  c.isAlpha || c.isDigit || isPyWhitespace c ||
    c = '/' || c = '\\' || c = '.' || c = ',' || c = '-'

/-- Embeds `re.sub(r"(\n|\s|\t)(\n|\s|\t)+", r"\1", ...)`: each maximal run of at
least two whitespace characters is replaced by its first character. -/
def collapseWs : List Char → List Char
  | [] => []
  | c :: rest =>
      if isPyWhitespace c then c :: collapseWs (rest.dropWhile isPyWhitespace)
      else c :: collapseWs rest
termination_by l => l.length
decreasing_by
  · exact Nat.lt_succ_of_le (List.dropWhile_sublist _).length_le
  · exact Nat.lt_succ_of_le (Nat.le_refl _)

/-- The `else` arm of `extract_metadata`: whitelist strip, then whitespace
collapse. -/
def formatMetadata (s : String) : String :=
  String.mk (collapseWs (s.data.filter isWhitelisted))

/-- Embeds `MetadataExtractor.extract_metadata`: `DigitizationError` exactly when
the OCR engine is not installed, else the formatted engine text. -/
def extract_metadata : OcrOutcome → Except String String
  | .engineMissing => .error "Tesseract OCR-Engine installation not found."
  | .text s => .ok (formatMetadata s)

/-! ## Auxiliary predicates and concrete evaluation inputs -/

/-- Holds when no two adjacent characters are both whitespace (the shape
`extract_metadata`'s whitespace collapse guarantees). -/
def noDoubleWs : List Char → Bool
  | c1 :: c2 :: rest => !(isPyWhitespace c1 && isPyWhitespace c2) && noDoubleWs (c2 :: rest)
  | _ => true

/-- An all-normal report: heart rate 75, regular rhythm, diagnosis Normal. -/
def allNormalReport : Report :=
  { patientId := "p1", heartRate := "75 BPM", rrInterval := "0.80 sec",
    heartRhythm := "Regular", cardiacAxis := "Normal Axis", stSegment := "Normal",
    diagnosis := "Normal", miType := "N/A", confidence := 1/2,
    validationWarnings := [], affectedLeads := ["II"],
    leadIIDetail :=
      { P_wave_amp := "0.25 mV", P_wave_dur := "80 ms", QRS_amp := "1.8 mV",
        QRS_dur := "100 ms", T_wave_amp := "0.35 mV", T_wave_dur := "160 ms",
        PR_interval := "160 ms", QT_interval := "400 ms", QTc_interval := "430 ms",
        ST_segment_lead_II := "Normal" } }

/-- A flat signal of the canonical length 187. -/
def flatSignal : List ℚ := List.replicate 187 0

/-- Concrete pipeline inputs whose classifier vector predicts class 2
(Myocardial Infarction). -/
def miInputs : PipelineInputs :=
  { pred := [0, 0, 1, 0, 0], noise := 0, patientId := "id1", hrNat := 75,
    rrStr := "0.80", rhythmRegular := true, signal := [] }

/-- Concrete pipeline inputs whose classifier vector predicts class 0
(Normal). -/
def normalInputs : PipelineInputs :=
  { pred := [1, 0, 0, 0, 0], noise := 0, patientId := "id2", hrNat := 75,
    rrStr := "0.80", rhythmRegular := true, signal := [] }

/-- The Section III rows of `allNormalReport`. -/
def normalReportRows : List LeadRow :=
  _LEADS_ALL.map (fun lead =>
    { lead := lead, amplitude := amplitudeRef lead, duration := durationRef lead,
      morphology := if allNormalReport.affectedLeads.contains lead then "Abnormal"
                    else "Normal",
      qt := "400" })

/-- A small concrete decoded grayscale image grid. -/
def sampleImg : List (List ℚ) := [[0, 255], [255, 0]]

/-! ## Helper lemmas -/

lemma mem_of_mem_collapseWs (l : List Char) (c : Char) (h : c ∈ collapseWs l) : c ∈ l := by
  induction l using collapseWs.induct with
  | case1 => simp [collapseWs] at h
  | case2 c0 rest hws ih =>
      rw [collapseWs, if_pos hws] at h
      rcases List.mem_cons.mp h with h1 | h2
      · exact h1 ▸ List.mem_cons_self _ _
      · exact List.mem_cons_of_mem _ ((List.dropWhile_sublist _).mem (ih h2))
  | case3 c0 rest hws ih =>
      rw [collapseWs, if_neg hws] at h
      rcases List.mem_cons.mp h with h1 | h2
      · exact h1 ▸ List.mem_cons_self _ _
      · exact List.mem_cons_of_mem _ (ih h2)

lemma collapseWs_cons (c : Char) (rest : List Char) :
    collapseWs (c :: rest) =
      c :: (if isPyWhitespace c then collapseWs (rest.dropWhile isPyWhitespace)
            else collapseWs rest) := by
  rw [collapseWs]
  split <;> rfl

lemma noDoubleWs_collapseWs (l : List Char) : noDoubleWs (collapseWs l) = true := by
  induction l using collapseWs.induct with
  | case1 => rw [collapseWs]; rfl
  | case2 c0 rest hws ih =>
      rw [collapseWs, if_pos hws]
      rcases hd : collapseWs (rest.dropWhile isPyWhitespace) with _ | ⟨c2, t⟩
      · rfl
      · have hc2 : isPyWhitespace c2 = false := by
          rcases he : rest.dropWhile isPyWhitespace with _ | ⟨x, xs⟩
          · rw [he] at hd; simp [collapseWs] at hd
          · rw [he, collapseWs_cons] at hd
            have hx := List.head?_dropWhile_not isPyWhitespace rest
            rw [he] at hx
            simp at hx
            injection hd with h1 h2
            rw [← h1]; exact hx
        rw [noDoubleWs, hc2]
        simp only [Bool.and_false, Bool.not_false, Bool.true_and]
        rw [← hd]; exact ih
  | case3 c0 rest hws ih =>
      rw [collapseWs, if_neg hws]
      rcases hd : collapseWs rest with _ | ⟨c2, t⟩
      · rfl
      · rw [noDoubleWs]
        simp only [Bool.not_eq_true] at hws
        rw [hws]
        simp only [Bool.false_and, Bool.not_false, Bool.true_and]
        rw [← hd]; exact ih

/-- The territory loop returns the first table entry (in table order) all of
whose required leads occur in the affected-lead list. -/
lemma inferLoop_eq_find (leads : List String) (table : List MiEntry) :
    inferLoop leads table =
      ((table.find? (fun e => e.leads.all (fun l => leads.contains l))).map
          MiEntry.territory).getD "Undetermined Type" := by
  induction table with
  | nil => rfl
  | cons e rest ih =>
      by_cases h : (e.leads.all fun l => leads.contains l) = true
      · rw [inferLoop, if_pos h, List.find?_cons, h]
        rfl
      · have hf : (e.leads.all fun l => leads.contains l) = false := by
          simp only [Bool.not_eq_true] at h
          exact h
        rw [inferLoop, if_neg h, ih, List.find?_cons, hf]

/-! ## Claim theorems -/

/-- C1: for every report the Parameter Validator returns exactly the
warnings of the five rules in the fixed order — the leading integer of the
heart-rate field is parsed with parse failure treated as rate 0 (no
exception escapes), rate < 60 appends the bradycardia warning, otherwise
rate > 100 appends the tachycardia warning (so the two are mutually
exclusive), irregular rhythm appends its warning, and an MI diagnosis with
ST segment not "Elevation" appends the MI warning; the all-normal report
(rate 75, Regular, Normal) gets the empty warning list. -/
theorem validator_rule_order_and_exclusivity :
    (∀ r : Report,
      heartRateValue r = (((pySplit r.heartRate).head?).bind pythonInt).getD 0 ∧
      validate_parameters r =
        (if heartRateValue r < 60 then ["Bradycardia detected (<60 BPM)"]
         else if heartRateValue r > 100 then ["Tachycardia detected (>100 BPM)"]
         else [])
        ++ (if r.heartRhythm = "Irregular" then
              ["Irregular rhythm requires further investigation"] else [])
        ++ (if r.diagnosis = "Myocardial Infarction" ∧ r.stSegment ≠ "Elevation" then
              ["MI diagnosis without ST elevation - consider alternative diagnoses"]
            else []) ∧
      (validate_parameters r).count "Bradycardia detected (<60 BPM)"
        + (validate_parameters r).count "Tachycardia detected (>100 BPM)" ≤ 1) ∧
    validate_parameters allNormalReport = [] := by
  refine ⟨fun r => ⟨?_, rfl, ?_⟩, by decide⟩
  · cases h : (pySplit r.heartRate).head? <;> simp [heartRateValue, h]
  · simp only [validate_parameters, List.count_append]
    split_ifs <;> simp_all

/-- Witness for C1: the validator applied to the concrete all-normal
report. -/
theorem validator_rule_order_and_exclusivity_witness :
    (validate_parameters allNormalReport).count "Bradycardia detected (<60 BPM)"
      + (validate_parameters allNormalReport).count "Tachycardia detected (>100 BPM)" ≤ 1 ∧
    validate_parameters allNormalReport = [] :=
  ⟨(validator_rule_order_and_exclusivity.1 allNormalReport).2.2,
   validator_rule_order_and_exclusivity.2⟩

/-- C2: for every signal of the canonical length 187 the ST analyzer's
level is exactly median(signal[100:120]) - median(signal[0:50]),
elevation holds iff level > 0.1, depression holds iff level < -0.1, and
elevation and depression are never both true. -/
theorem st_level_formula_and_exclusive_thresholds (s : List ℚ) (h : s.length = 187) :
    (analyze_st_segment s).level = median ((s.drop 100).take 20) - median (s.take 50) ∧
    ((analyze_st_segment s).elevation = true ↔ (analyze_st_segment s).level > 1/10) ∧
    ((analyze_st_segment s).depression = true ↔ (analyze_st_segment s).level < -(1/10)) ∧
    ((analyze_st_segment s).elevation && (analyze_st_segment s).depression) = false := by
  refine ⟨rfl, by simp [analyze_st_segment], by simp [analyze_st_segment], ?_⟩
  simp only [analyze_st_segment]
  rcases le_or_lt (median ((s.drop 100).take 20) - median (s.take 50)) (1/10) with hle | hgt
  · simp only [Bool.and_eq_false_iff]
    left
    simpa using not_lt.mpr hle
  · simp only [Bool.and_eq_false_iff]
    right
    simp only [decide_eq_false_iff_not, not_lt]
    linarith

/-- Witness for C2: the flat signal of length 187. -/
theorem st_level_formula_and_exclusive_thresholds_witness :
    (analyze_st_segment flatSignal).level =
      median ((flatSignal.drop 100).take 20) - median (flatSignal.take 50) ∧
    ((analyze_st_segment flatSignal).elevation = true ↔
      (analyze_st_segment flatSignal).level > 1/10) ∧
    ((analyze_st_segment flatSignal).depression = true ↔
      (analyze_st_segment flatSignal).level < -(1/10)) ∧
    ((analyze_st_segment flatSignal).elevation &&
      (analyze_st_segment flatSignal).depression) = false :=
  st_level_formula_and_exclusive_thresholds flatSignal (by rw [flatSignal, List.length_replicate])

/-- C3: the territory classifier walks the static `_MI_TYPES` table in its
defined order and returns the first territory whose entire lead set is
contained in `leads_affected`, defaulting to "Undetermined Type"; leads
{V2,V3,V4} give "Anterior" and {II} alone gives "Undetermined Type". -/
theorem territory_first_full_match :
    (∀ a : STAnalysis,
      infer_mi_type a =
        ((_MI_TYPES.find? (fun e => e.leads.all (fun l => a.leads_affected.contains l))).map
            MiEntry.territory).getD "Undetermined Type") ∧
    infer_mi_type { elevation := false, depression := false, level := 0,
                    leads_affected := ["V2", "V3", "V4"] } = "Anterior" ∧
    infer_mi_type { elevation := false, depression := false, level := 0,
                    leads_affected := ["II"] } = "Undetermined Type" :=
  ⟨fun a => inferLoop_eq_find a.leads_affected _MI_TYPES, by decide, by decide⟩

/-- C4: in every pipeline report the MI-type field differs from "N/A" only
when the predicted diagnosis is "Myocardial Infarction", and for every
other predicted class it is forced to "N/A" (independently of the
ST analysis). -/
theorem territory_only_for_mi_diagnosis (inp : PipelineInputs) :
    ((process_ecg_image inp).miType ≠ "N/A" →
      (process_ecg_image inp).diagnosis = "Myocardial Infarction") ∧
    ((process_ecg_image inp).diagnosis ≠ "Myocardial Infarction" →
      (process_ecg_image inp).miType = "N/A") := by
  simp only [process_ecg_image]
  split_ifs with h1 h2 <;> simp [h1]

/-- Witness for C4: an MI prediction has a non-"N/A" territory, a Normal
prediction is forced to "N/A". -/
theorem territory_only_for_mi_diagnosis_witness :
    (process_ecg_image miInputs).diagnosis = "Myocardial Infarction" ∧
    (process_ecg_image normalInputs).miType = "N/A" :=
  ⟨(territory_only_for_mi_diagnosis miInputs).1 (by decide),
   (territory_only_for_mi_diagnosis normalInputs).2 (by decide)⟩

/-- C5: whenever Section III renders, it has exactly 12 rows, one per lead
in the canonical order I, II, III, aVR, aVL, aVF, V1..V6; the morphology
column is "Abnormal" exactly for leads in the affected-lead set and
"Normal" otherwise, and the QT column carries the same value on every
row. -/
theorem section_iii_twelve_rows_fixed_order (r : Report) (rows : List LeadRow)
    (h : sectionIII r = some rows) :
    rows.length = 12 ∧
    rows.map LeadRow.lead = _LEADS_ALL ∧
    (∀ row ∈ rows, row.morphology =
      if r.affectedLeads.contains row.lead then "Abnormal" else "Normal") ∧
    (∀ row1 ∈ rows, ∀ row2 ∈ rows, row1.qt = row2.qt) := by
  rw [sectionIII] at h
  split at h
  · exact absurd h (by simp)
  · split at h
    · exact absurd h (by simp)
    · injection h with h
      subst h
      refine ⟨by rw [List.length_map]; rfl, ?_, ?_, ?_⟩
      · rw [List.map_map]
        exact List.map_id _
      · intro row hrow
        obtain ⟨lead, _, rfl⟩ := List.mem_map.mp hrow
        rfl
      · intro row1 h1 row2 h2
        obtain ⟨l1, _, rfl⟩ := List.mem_map.mp h1
        obtain ⟨l2, _, rfl⟩ := List.mem_map.mp h2
        rfl

/-- Witness for C5: the rendered Section III of the concrete all-normal
report. -/
theorem section_iii_twelve_rows_fixed_order_witness :
    normalReportRows.length = 12 ∧
    normalReportRows.map LeadRow.lead = _LEADS_ALL ∧
    (∀ row ∈ normalReportRows, row.morphology =
      if allNormalReport.affectedLeads.contains row.lead then "Abnormal" else "Normal") ∧
    (∀ row1 ∈ normalReportRows, ∀ row2 ∈ normalReportRows, row1.qt = row2.qt) :=
  section_iii_twelve_rows_fixed_order allNormalReport normalReportRows (by decide)

/-- C6: the calibrated confidence is exactly the clamp of p + r into
[0, 1], and the confidence stored in every pipeline report equals that
clamp of the top-class probability plus the perturbation, hence lies in
[0, 1]. -/
theorem confidence_clamped_unit_interval :
    (∀ p r : ℚ, calibrate p r = min 1 (max 0 (p + r)) ∧
      0 ≤ calibrate p r ∧ calibrate p r ≤ 1) ∧
    (∀ inp : PipelineInputs,
      (process_ecg_image inp).confidence =
        calibrate (inp.pred.getD (argmax inp.pred) 0) inp.noise ∧
      0 ≤ (process_ecg_image inp).confidence ∧ (process_ecg_image inp).confidence ≤ 1) := by
  have hb : ∀ p r : ℚ, 0 ≤ calibrate p r ∧ calibrate p r ≤ 1 := fun p r =>
    ⟨le_min zero_le_one (le_max_left 0 _), min_le_left 1 _⟩
  refine ⟨fun p r => ⟨rfl, hb p r⟩, fun inp => ⟨?_, ?_⟩⟩
  · rfl
  · exact (by rfl : (process_ecg_image inp).confidence = _) ▸ hb _ inp.noise

/-- C7: the signal deriver produces a signal of length exactly 187 for
every decoded image grid, and it is a pure function of the grid (equal
inputs give equal signals; there is no randomness parameter at all). -/
theorem derived_signal_length_and_determinism :
    (∀ img : List (List ℚ), (preprocess_ecg_image img).length = 187) ∧
    (∀ img1 img2 : List (List ℚ), img1 = img2 →
      preprocess_ecg_image img1 = preprocess_ecg_image img2) :=
  ⟨fun img => by
      show (npInterp (linspace 187) _ _).length = 187
      rw [npInterp, List.length_map, linspace, List.length_map, List.length_range],
   fun img1 img2 h => h ▸ rfl⟩

/-- Witness for C7: a concrete image grid. -/
theorem derived_signal_length_and_determinism_witness :
    (preprocess_ecg_image sampleImg).length = 187 ∧
    preprocess_ecg_image sampleImg = preprocess_ecg_image sampleImg :=
  ⟨derived_signal_length_and_determinism.1 sampleImg,
   derived_signal_length_and_determinism.2 sampleImg sampleImg rfl⟩

/-- C8: the OCR metadata reader fails with the engine-unavailable error
exactly when the OCR engine is missing; on success it returns the engine
text filtered to the whitelist (letters, digits, whitespace, and the
characters / \ . , -) with each whitespace run collapsed to its first
character — so the output contains only whitelisted characters and never
two adjacent whitespace characters. -/
theorem ocr_whitelist_collapse_and_error_contract :
    (∀ o : OcrOutcome,
      extract_metadata o = Except.error "Tesseract OCR-Engine installation not found." ↔
        o = OcrOutcome.engineMissing) ∧
    (∀ s : String,
      extract_metadata (OcrOutcome.text s) =
        Except.ok (String.mk (collapseWs (s.data.filter isWhitelisted))) ∧
      (formatMetadata s).data.all isWhitelisted = true ∧
      noDoubleWs (formatMetadata s).data = true) := by
  constructor
  · intro o
    cases o with
    | engineMissing => simp [extract_metadata]
    | text s => simp [extract_metadata]
  · intro s
    refine ⟨rfl, ?_, ?_⟩
    · rw [List.all_eq_true]
      intro c hc
      have hmem := mem_of_mem_collapseWs _ c (by simpa [formatMetadata] using hc)
      exact List.of_mem_filter hmem
    · exact noDoubleWs_collapseWs _

/-- Witness for C8: the missing-engine outcome and a concrete text. -/
theorem ocr_whitelist_collapse_and_error_contract_witness :
    extract_metadata OcrOutcome.engineMissing =
      Except.error "Tesseract OCR-Engine installation not found." ∧
    (formatMetadata "ab  *c").data.all isWhitelisted = true :=
  ⟨(ocr_whitelist_collapse_and_error_contract.1 OcrOutcome.engineMissing).mpr rfl,
   (ocr_whitelist_collapse_and_error_contract.2 "ab  *c").2.1⟩

/-- C9: in every pipeline report an MI diagnosis forces the ST segment
field to "Elevation" (it is derived from the predicted label alone), so
the MI-without-elevation warning never occurs among the pipeline report's
validation warnings. -/
theorem pipeline_mi_implies_elevation_no_mi_warning (inp : PipelineInputs) :
    ((process_ecg_image inp).diagnosis = "Myocardial Infarction" →
      (process_ecg_image inp).stSegment = "Elevation") ∧
    ((process_ecg_image inp).validationWarnings.count
        "MI diagnosis without ST elevation - consider alternative diagnoses") = 0 := by
  simp only [process_ecg_image]
  split_ifs with h1 h2 <;>
    simp [validate_parameters, h1, List.count_append] <;>
    split_ifs <;> simp_all

/-- Witness for C9: a concrete MI prediction. -/
theorem pipeline_mi_implies_elevation_no_mi_warning_witness :
    (process_ecg_image miInputs).stSegment = "Elevation" ∧
    ((process_ecg_image miInputs).validationWarnings.count
        "MI diagnosis without ST elevation - consider alternative diagnoses") = 0 :=
  ⟨(pipeline_mi_implies_elevation_no_mi_warning miInputs).1 (by decide),
   (pipeline_mi_implies_elevation_no_mi_warning miInputs).2⟩

/-- C10: every pipeline report's MI-type field is "N/A" or
"Undetermined Type" (never a named territory), because the analyzer pins
`leads_affected` to ["II"] and no territory's lead set is contained in
["II"]. -/
theorem pipeline_territory_na_or_undetermined :
    (∀ inp : PipelineInputs,
      (process_ecg_image inp).miType = "N/A" ∨
      (process_ecg_image inp).miType = "Undetermined Type") ∧
    inferLoop ["II"] _MI_TYPES = "Undetermined Type" := by
  refine ⟨fun inp => ?_, by decide⟩
  simp only [process_ecg_image]
  split_ifs with h1 h2 <;> simp
  right
  rfl
